import Mathlib

/-!
Shallow embedding of `src/nansat/mappers/mapper_meris_l1.py` (the MERIS
Level-1 band mapper of the nansat repository) and proofs about the claims
of its specification.

The mapper builds a static 16-entry band-descriptor list, default-fills
storage types, derives suffixes from wavelengths, assigns 15 scale ratios
read from the envelope header, appends auxiliary-grid descriptors, and
finally registers everything in a VRT container. Python dictionaries with
optional keys are modelled as structures with `Option` fields; the product
identifier is a `List Char` so that Python slicing (`product[0:9]`, which
truncates) is `List.take 9`. External collaborators (the Envisat envelope
reader and the VRT container) are modelled as inputs in `MerisEnv` or, where
their behaviour decides a claim, by definitions marked `Modelled from the
spec`. Calls into collaborators are additionally recorded in an event trace
so that statements about call order on the error path can be made.
-/

namespace MerisL1

/-- The `src` side of a band-descriptor dictionary: dictionary keys that the
mapper ever writes become `Option` fields (`none` = key absent). -/
structure SrcDict where
  SourceFilename : String
  SourceBand : Nat
  DataType : Option Nat := none
  ScaleRatio : Option String := none
  deriving DecidableEq, Repr

/-- The `dst` side of a band-descriptor dictionary. -/
structure DstDict where
  wkv : Option String := none
  wavelength : Option String := none
  suffix : Option String := none
  name : Option String := none
  units : Option String := none
  deriving DecidableEq, Repr

/-- One band descriptor (one element of `metaDict` in the source). -/
structure BandDict where
  src : SrcDict
  dst : DstDict
  deriving DecidableEq, Repr

instance : Inhabited BandDict :=
  ⟨{ src := { SourceFilename := "", SourceBand := 0 }, dst := {} }⟩

/-- An auxiliary-grid VRT returned by `get_ads_vrts`: the mapper only reads
its file name and the `name` and `units` metadata items of its band 1. -/
structure AdsVRT where
  fileName : String
  band1name : Option String
  band1units : Option String
  deriving DecidableEq, Repr

/-- Environment supplied by the external collaborators: the product
identifier that `Envisat.__init__` reads from the metadata, the envelope
attribute slots feeding `read_scaling_gads`, the string encoding that the
Python builtin `str` applies to a slot value, and the auxiliary VRT list
returned by `get_ads_vrts`. -/
structure MerisEnv (α : Type) where
  product : List Char
  gads : Nat → α
  pyStr : α → String
  adsVRTs : List AdsVRT

/-- The dedicated recognition-failure signal (`WrongMapperError`). -/
inductive MapperError where
  | wrongMapper
  deriving DecidableEq, Repr

/-- Calls into external collaborators, in source order, recorded as a trace. -/
inductive Event where
  | envisatInit
  | readScalingGads
  | getAdsVrts
  | vrtInit
  | createBands
  | setEnvisatTime
  | addGeolocation
  deriving DecidableEq, Repr

/-- The mapper state after a successful construction: the band-descriptor
list handed to `_create_bands`, the kept auxiliary VRTs, and the attached
geolocation arrays as (zoomSize, step) pairs. -/
structure Mapper where
  bands : List BandDict
  subVRTs : List AdsVRT
  geolocationArrays : List (Nat × Nat)
  deriving DecidableEq, Repr

/-- The recognized 9-character product literal for full resolution. -/
def merFRS1 : List Char := "MER_FRS_1".toList

/-- The recognized 9-character product literal for reduced resolution. -/
def merRR1 : List Char := "MER_RR__1".toList

/-- Python `range(a, b)`. -/
def pythonRange (a b : Nat) : List Nat :=
  (List.range (b - a)).map (a + ·)

/-- Modelled from the spec: `read_scaling_gads` lives in the external
Envisat helper (envisat.py, not part of the mapper file); per the spec it
reads one scale coefficient from each attribute slot in the given reserved
index range of the envelope header. -/
def read_scaling_gads {α : Type} (gads : Nat → α) (indices : List Nat) : List α :=
  indices.map gads

/-- Modelled from the spec: `add_geolocation_from_ads` lives in the external
Envisat helper; per the spec it computes and attaches exactly one
pixel-to-lat/lon geolocation array using the supplied zoomSize and step. -/
def add_geolocation_from_ads (zoomSize step : Nat) : List (Nat × Nat) :=
  [(zoomSize, step)]

/-- The default storage type written by the default-fill loop; the source
comments it as the MERIS L1 default, DataType UInt16. -/
def uint16Code : Nat := 2

/-- The static 16-entry descriptor list `metaDict` exactly as written in the
source (lines 48 to 96): 15 radiance bands and one quality-flags band. -/
def metaDict0 (fileName : String) : List BandDict :=
  [{ src := { SourceFilename := fileName, SourceBand := 1 },
     dst := { wkv := some "toa_outgoing_spectral_radiance", wavelength := some "413" } },
   { src := { SourceFilename := fileName, SourceBand := 2 },
     dst := { wkv := some "toa_outgoing_spectral_radiance", wavelength := some "443" } },
   { src := { SourceFilename := fileName, SourceBand := 3 },
     dst := { wkv := some "toa_outgoing_spectral_radiance", wavelength := some "490" } },
   { src := { SourceFilename := fileName, SourceBand := 4 },
     dst := { wkv := some "toa_outgoing_spectral_radiance", wavelength := some "510" } },
   { src := { SourceFilename := fileName, SourceBand := 5 },
     dst := { wkv := some "toa_outgoing_spectral_radiance", wavelength := some "560" } },
   { src := { SourceFilename := fileName, SourceBand := 6 },
     dst := { wkv := some "toa_outgoing_spectral_radiance", wavelength := some "620" } },
   { src := { SourceFilename := fileName, SourceBand := 7 },
     dst := { wkv := some "toa_outgoing_spectral_radiance", wavelength := some "665" } },
   { src := { SourceFilename := fileName, SourceBand := 8 },
     dst := { wkv := some "toa_outgoing_spectral_radiance", wavelength := some "681" } },
   { src := { SourceFilename := fileName, SourceBand := 9 },
     dst := { wkv := some "toa_outgoing_spectral_radiance", wavelength := some "709" } },
   { src := { SourceFilename := fileName, SourceBand := 10 },
     dst := { wkv := some "toa_outgoing_spectral_radiance", wavelength := some "753" } },
   { src := { SourceFilename := fileName, SourceBand := 11 },
     dst := { wkv := some "toa_outgoing_spectral_radiance", wavelength := some "761" } },
   { src := { SourceFilename := fileName, SourceBand := 12 },
     dst := { wkv := some "toa_outgoing_spectral_radiance", wavelength := some "778" } },
   { src := { SourceFilename := fileName, SourceBand := 13 },
     dst := { wkv := some "toa_outgoing_spectral_radiance", wavelength := some "864" } },
   { src := { SourceFilename := fileName, SourceBand := 14 },
     dst := { wkv := some "toa_outgoing_spectral_radiance", wavelength := some "849" } },
   { src := { SourceFilename := fileName, SourceBand := 15 },
     dst := { wkv := some "toa_outgoing_spectral_radiance", wavelength := some "900" } },
   { src := { SourceFilename := fileName, SourceBand := 16, DataType := some 1 },
     dst := { wkv := some "quality_flags", suffix := some "l1" } }]

/-- The wavelengths of the 15 radiance bands, in table order. -/
def wavelengthTable : List String :=
  ["413", "443", "490", "510", "560", "620", "665", "681", "709", "753",
   "761", "778", "864", "849", "900"]

/-- Body of the loop at lines 99 to 103: default-fill `DataType` when the
key is absent, then mirror `wavelength` into `suffix` when present. -/
def fillBand (bd : BandDict) : BandDict :=
  let bd1 := if bd.src.DataType = none then
    { bd with src := { bd.src with DataType := some uint16Code } }
  else bd
  match bd1.dst.wavelength with
  | some w => { bd1 with dst := { bd1.dst with suffix := some w } }
  | none => bd1

/-- Body of the loop at lines 108 to 109: set `ScaleRatio` on a descriptor. -/
def setScaleRatio (bd : BandDict) (s : String) : BandDict :=
  { bd with src := { bd.src with ScaleRatio := some s } }

/-- The loop at lines 108 to 109: `enumerate(metaDict[:-1])` walks every
descriptor but the last and stores the string-encoded i-th scale on the
i-th descriptor; the last descriptor is untouched. -/
def scaleLoop (scales : List String) (md : List BandDict) : List BandDict :=
  (List.zipWith setScaleRatio md.dropLast scales) ++ md.drop (md.length - 1)

/-- Descriptor appended for one auxiliary VRT (lines 120 to 127): source is
band 1 of the auxiliary raster, destination name and units are copied from
the metadata of that band. -/
def adsBand (v : AdsVRT) : BandDict :=
  { src := { SourceFilename := v.fileName, SourceBand := 1 },
    dst := { name := v.band1name, units := v.band1units } }

/-- The construction steps after the product check succeeds (lines 48 to
141): build `metaDict`, default-fill and derive suffixes, assign scale
ratios, append auxiliary bands, and record the geolocation request. -/
def mapper_body {α : Type} (env : MerisEnv α) (fileName : String)
    (geolocation : Bool) (zoomSize step : Nat) : Mapper :=
  let md0 := metaDict0 fileName
  let md1 := md0.map fillBand
  let scales := read_scaling_gads env.gads (pythonRange 7 22)
  let md2 := scaleLoop (scales.map env.pyStr) md1
  let md3 := md2 ++ env.adsVRTs.map adsBand
  { bands := md3
    subVRTs := env.adsVRTs
    geolocationArrays :=
      if geolocation then add_geolocation_from_ads zoomSize step else [] }

/-- Trace of external calls on the successful path, in source order. -/
def okEvents (geolocation : Bool) : List Event :=
  [Event.envisatInit, Event.readScalingGads, Event.getAdsVrts, Event.vrtInit,
   Event.createBands, Event.setEnvisatTime]
    ++ (if geolocation then [Event.addGeolocation] else [])

/-- `Mapper.__init__` (lines 16 to 141): after `Envisat.__init__` the product
identifier is checked; a mismatch raises `WrongMapperError` with nothing
else executed, otherwise construction runs to completion. The result pairs
the outcome with the trace of external calls that were made. -/
def mapper_init {α : Type} (env : MerisEnv α) (fileName : String)
    (geolocation : Bool) (zoomSize step : Nat) :
    Except MapperError Mapper × List Event :=
  if env.product.take 9 ≠ merFRS1 ∧ env.product.take 9 ≠ merRR1 then
    (Except.error MapperError.wrongMapper, [Event.envisatInit])
  else
    (Except.ok (mapper_body env fileName geolocation zoomSize step),
     okEvents geolocation)

/-! ## Concrete environments used by witnesses and counterexamples -/

/-- A valid full-resolution product environment with no auxiliary VRTs. -/
def envOk : MerisEnv String :=
  { product := "MER_FRS_1_TEST".toList
    gads := fun n => toString n
    pyStr := id
    adsVRTs := [] }

/-- A valid reduced-resolution product environment with one auxiliary VRT. -/
def aux1 : AdsVRT :=
  { fileName := "adsfile", band1name := some "sun zenith angles",
    band1units := some "degrees" }

/-- Environment with one auxiliary VRT attached. -/
def envAux : MerisEnv String :=
  { product := "MER_RR__1_TEST".toList
    gads := fun n => toString n
    pyStr := id
    adsVRTs := [aux1] }

/-- An unrecognized product environment. -/
def envBad : MerisEnv String :=
  { product := "WRONG_PRODUCT".toList
    gads := fun n => toString n
    pyStr := id
    adsVRTs := [] }

/-- A product identifier shorter than 9 characters. -/
def envShort : MerisEnv String :=
  { product := "MER".toList
    gads := fun n => toString n
    pyStr := id
    adsVRTs := [] }

/-! ## Helper lemmas shared by the claim theorems -/

/-- The construction fails with the dedicated error exactly when the
9-character product slice matches neither recognized literal. -/
theorem mapper_init_error_iff {α : Type} (env : MerisEnv α) (fileName : String)
    (geolocation : Bool) (zoomSize step : Nat) :
    (mapper_init env fileName geolocation zoomSize step).1
        = Except.error MapperError.wrongMapper ↔
      (env.product.take 9 ≠ merFRS1 ∧ env.product.take 9 ≠ merRR1) := by
  unfold mapper_init
  split
  · simp_all
  · simp_all
    tauto

/-- A successful construction yields exactly the state of `mapper_body`. -/
theorem mapper_init_ok_eq {α : Type} (env : MerisEnv α) (fileName : String)
    (geolocation : Bool) (zoomSize step : Nat) (m : Mapper)
    (h : (mapper_init env fileName geolocation zoomSize step).1 = Except.ok m) :
    m = mapper_body env fileName geolocation zoomSize step := by
  unfold mapper_init at h
  split at h <;> simp_all

/-! ## Claim theorems -/

/-- Claim C1: construction signals a recognition failure (the dedicated
WrongMapperError) if and only if the first 9 characters of the product
identifier read from the metadata equal neither "MER_FRS_1" nor
"MER_RR__1"; when the slice equals one of the two literals, no recognition
failure is raised. -/
theorem claim_C1_recognition_iff {α : Type} (env : MerisEnv α) (fileName : String)
    (geolocation : Bool) (zoomSize step : Nat) :
    (mapper_init env fileName geolocation zoomSize step).1
        = Except.error MapperError.wrongMapper ↔
      (env.product.take 9 ≠ merFRS1 ∧ env.product.take 9 ≠ merRR1) :=
  mapper_init_error_iff env fileName geolocation zoomSize step

/-- Claim C8: on a product-identifier mismatch, the recognition failure is
signaled right after the envelope read: the trace holds only the envelope
initialization, so no scale coefficients were read, no auxiliary grids were
requested, and the raster container was not initialized. -/
theorem claim_C8_early_rejection {α : Type} (env : MerisEnv α) (fileName : String)
    (geolocation : Bool) (zoomSize step : Nat)
    (h : env.product.take 9 ≠ merFRS1 ∧ env.product.take 9 ≠ merRR1) :
    (mapper_init env fileName geolocation zoomSize step).1
        = Except.error MapperError.wrongMapper ∧
    (mapper_init env fileName geolocation zoomSize step).2 = [Event.envisatInit] ∧
    Event.readScalingGads ∉ (mapper_init env fileName geolocation zoomSize step).2 ∧
    Event.getAdsVrts ∉ (mapper_init env fileName geolocation zoomSize step).2 ∧
    Event.vrtInit ∉ (mapper_init env fileName geolocation zoomSize step).2 := by
  unfold mapper_init
  rw [if_pos h]
  exact ⟨rfl, rfl, by decide, by decide, by decide⟩

/-- Witness for claim C8 at a concrete unrecognized product. -/
theorem claim_C8_witness :
    (envBad.product.take 9 ≠ merFRS1 ∧ envBad.product.take 9 ≠ merRR1) ∧
    (mapper_init envBad "f" false 500 1).1 = Except.error MapperError.wrongMapper ∧
    (mapper_init envBad "f" false 500 1).2 = [Event.envisatInit] := by
  have h := claim_C8_early_rejection envBad "f" false 500 1 (by decide)
  exact ⟨by decide, h.1, h.2.1⟩

/-- Claim C9: a product identifier shorter than 9 characters always yields
the recognition failure; the slice is total (it truncates), and a short
product can never equal either 9-character literal. -/
theorem claim_C9_short_product_rejected {α : Type} (env : MerisEnv α)
    (fileName : String) (geolocation : Bool) (zoomSize step : Nat)
    (h : env.product.length < 9) :
    (mapper_init env fileName geolocation zoomSize step).1
        = Except.error MapperError.wrongMapper := by
  rw [mapper_init_error_iff]
  constructor
  · intro he
    have h9 : (env.product.take 9).length = 9 := by rw [he]; rfl
    rw [List.length_take] at h9
    omega
  · intro he
    have h9 : (env.product.take 9).length = 9 := by rw [he]; rfl
    rw [List.length_take] at h9
    omega

/-- Witness for claim C9 at a 3-character product identifier. -/
theorem claim_C9_witness :
    envShort.product.length < 9 ∧
    (mapper_init envShort "f" false 500 1).1
        = Except.error MapperError.wrongMapper :=
  ⟨by decide, claim_C9_short_product_rejected envShort "f" false 500 1 (by decide)⟩

/-- Claim C3: the static descriptor list has exactly 16 entries before
auxiliary grids are appended; for every j below 15 the entry at position j
is tagged toa_outgoing_spectral_radiance, carries the j-th wavelength of
the fixed table, and reads source band j+1; the 16th entry is the
quality-flags band with source band 16 and fixed suffix "l1". -/
theorem claim_C3_static_table (fileName : String) (j : Nat) (hj : j < 15) :
    (metaDict0 fileName).length = 16 ∧
    ((metaDict0 fileName).getD j default).dst.wkv
        = some "toa_outgoing_spectral_radiance" ∧
    ((metaDict0 fileName).getD j default).dst.wavelength
        = some (wavelengthTable.getD j "") ∧
    ((metaDict0 fileName).getD j default).src.SourceBand = j + 1 ∧
    ((metaDict0 fileName).getD 15 default).dst.wkv = some "quality_flags" ∧
    ((metaDict0 fileName).getD 15 default).src.SourceBand = 16 ∧
    ((metaDict0 fileName).getD 15 default).dst.suffix = some "l1" := by
  interval_cases j <;> exact ⟨rfl, rfl, rfl, rfl, rfl, rfl, rfl⟩

/-- Witness for claim C3 at position 2 of the table. -/
theorem claim_C3_witness :
    (2 : Nat) < 15 ∧ (metaDict0 "f").length = 16 ∧
    ((metaDict0 "f").getD 2 default).dst.wavelength = some "490" ∧
    ((metaDict0 "f").getD 2 default).src.SourceBand = 3 := by
  have h := claim_C3_static_table "f" 2 (by decide)
  exact ⟨by decide, h.1, h.2.2.1.trans rfl, h.2.2.2.1⟩

/-- Claim C6: for every descriptor of the static table, the fill loop keeps
the wavelength unchanged, and afterwards the suffix equals the wavelength
string when a wavelength is present, while a descriptor without a
wavelength keeps its suffix unchanged. -/
theorem claim_C6_suffix_mirror (fileName : String) (bd : BandDict)
    (hmem : bd ∈ metaDict0 fileName) :
    (fillBand bd).dst.wavelength = bd.dst.wavelength ∧
    (fillBand bd).dst.suffix =
      (match bd.dst.wavelength with
       | some w => some w
       | none => bd.dst.suffix) := by
  simp only [metaDict0, List.mem_cons, List.not_mem_nil, or_false] at hmem
  rcases hmem with h | h | h | h | h | h | h | h | h | h | h | h | h | h | h | h <;>
    subst h <;> exact ⟨rfl, rfl⟩

/-- Witness for claim C6 at the first radiance descriptor and at the
quality-flags descriptor. -/
theorem claim_C6_witness :
    (fillBand ((metaDict0 "f").getD 0 default)).dst.suffix = some "413" ∧
    (fillBand ((metaDict0 "f").getD 15 default)).dst.suffix = some "l1" := by
  have h0 := claim_C6_suffix_mirror "f" ((metaDict0 "f").getD 0 default) (by decide)
  have h15 := claim_C6_suffix_mirror "f" ((metaDict0 "f").getD 15 default) (by decide)
  exact ⟨h0.2.trans rfl, h15.2.trans rfl⟩

/-- Formalization of claim C2 at one input: in every successful
construction the 16th static descriptor carries no ScaleRatio and carries
the 16-bit-unsigned storage type code. -/
def qualityBandClaim {α : Type} (env : MerisEnv α) (fileName : String)
    (geolocation : Bool) (zoomSize step : Nat) : Prop :=
  ∀ m, (mapper_init env fileName geolocation zoomSize step).1 = Except.ok m →
    (m.bands.getD 15 default).src.ScaleRatio = none ∧
    (m.bands.getD 15 default).src.DataType = some uint16Code

/-- Counterexample to claim C2: at a concrete valid product the 16th
descriptor keeps its explicit storage type code 1 and not the
16-bit-unsigned code 2, so the claim as stated fails. -/
theorem claim_C2_counterexample : ¬ qualityBandClaim envOk "f" false 500 1 := by
  intro h
  exact absurd (h (mapper_body envOk "f" false 500 1) rfl).2 (by decide)

/-- Claim C2 (amended): in every successful construction the 16th static
descriptor never carries a ScaleRatio key and always carries its explicit
storage type code 1, which differs from the 16-bit-unsigned code 2 that the
default-fill step writes elsewhere. -/
theorem claim_C2_amended {α : Type} (env : MerisEnv α) (fileName : String)
    (geolocation : Bool) (zoomSize step : Nat) (m : Mapper)
    (h : (mapper_init env fileName geolocation zoomSize step).1 = Except.ok m) :
    (m.bands.getD 15 default).src.ScaleRatio = none ∧
    (m.bands.getD 15 default).src.DataType = some 1 ∧
    (1 : Nat) ≠ uint16Code := by
  have hm := mapper_init_ok_eq env fileName geolocation zoomSize step m h
  subst hm
  exact ⟨rfl, rfl, by decide⟩

/-- Witness for claim C2 (amended) at a concrete valid product. -/
theorem claim_C2_witness :
    (mapper_init envOk "f" false 500 1).1
        = Except.ok (mapper_body envOk "f" false 500 1) ∧
    ((mapper_body envOk "f" false 500 1).bands.getD 15 default).src.ScaleRatio
        = none ∧
    ((mapper_body envOk "f" false 500 1).bands.getD 15 default).src.DataType
        = some 1 := by
  have h := claim_C2_amended envOk "f" false 500 1
      (mapper_body envOk "f" false 500 1) rfl
  exact ⟨rfl, h.1, h.2.1⟩

/-- Claim C5: exactly 15 scale coefficients are read from the reserved
attribute-slot range 7..21; for every j below 15 the j-th coefficient,
string-encoded, is the ScaleRatio of the j-th radiance descriptor with no
off-by-one shift, and the quality-flags descriptor is skipped. -/
theorem claim_C5_scale_assignment {α : Type} (env : MerisEnv α)
    (fileName : String) (geolocation : Bool) (zoomSize step : Nat)
    (m : Mapper) (j : Nat)
    (h : (mapper_init env fileName geolocation zoomSize step).1 = Except.ok m)
    (hj : j < 15) :
    (read_scaling_gads env.gads (pythonRange 7 22)).length = 15 ∧
    (m.bands.getD j default).src.ScaleRatio
        = some (env.pyStr (env.gads (7 + j))) ∧
    (m.bands.getD 15 default).src.ScaleRatio = none := by
  have hm := mapper_init_ok_eq env fileName geolocation zoomSize step m h
  subst hm
  refine ⟨rfl, ?_, rfl⟩
  interval_cases j <;> rfl

/-- Witness for claim C5 at position 2: the third slot read is attribute
slot 9 and its string encoding lands on the third descriptor. -/
theorem claim_C5_witness :
    (mapper_init envOk "f" false 500 1).1
        = Except.ok (mapper_body envOk "f" false 500 1) ∧ (2 : Nat) < 15 ∧
    ((mapper_body envOk "f" false 500 1).bands.getD 2 default).src.ScaleRatio
        = some "9" := by
  have h := claim_C5_scale_assignment envOk "f" false 500 1
      (mapper_body envOk "f" false 500 1) 2 rfl (by decide)
  exact ⟨rfl, by decide, h.2.1.trans rfl⟩

/-- Formalization of claim C4 at one input: every band descriptor of the
final list that lacks an explicit storage type received the default code,
so no descriptor of the final list is left without a storage type. -/
def allBandsTypedClaim {α : Type} (env : MerisEnv α) (fileName : String)
    (geolocation : Bool) (zoomSize step : Nat) : Prop :=
  ∀ m, (mapper_init env fileName geolocation zoomSize step).1 = Except.ok m →
    ∀ bd ∈ m.bands, bd.src.DataType ≠ none

/-- Counterexample to claim C4: with one auxiliary VRT the appended
auxiliary descriptor carries no storage type in the final list, because the
default-fill loop runs before the auxiliary descriptors are appended. -/
theorem claim_C4_counterexample : ¬ allBandsTypedClaim envAux "f" false 500 1 := by
  intro h
  exact h (mapper_body envAux "f" false 500 1) rfl (adsBand aux1) (by decide) rfl

/-- Claim C4 (amended): in every successful construction each of the first
15 descriptors, which lack an explicit storage type, received the default
16-bit-unsigned code; the 16th kept its explicit code 1; and every
auxiliary-grid descriptor appended after the static table carries no
storage type at all, the default fill having already run. -/
theorem claim_C4_amended {α : Type} (env : MerisEnv α) (fileName : String)
    (geolocation : Bool) (zoomSize step : Nat) (m : Mapper) (j : Nat)
    (bd : BandDict)
    (h : (mapper_init env fileName geolocation zoomSize step).1 = Except.ok m)
    (hj : j < 15) (hbd : bd ∈ m.bands.drop 16) :
    (m.bands.getD j default).src.DataType = some uint16Code ∧
    (m.bands.getD 15 default).src.DataType = some 1 ∧
    bd.src.DataType = none := by
  have hm := mapper_init_ok_eq env fileName geolocation zoomSize step m h
  subst hm
  refine ⟨?_, rfl, ?_⟩
  · interval_cases j <;> rfl
  · have hdrop : (mapper_body env fileName geolocation zoomSize step).bands.drop 16
        = env.adsVRTs.map adsBand := rfl
    rw [hdrop] at hbd
    rcases List.mem_map.mp hbd with ⟨v, hv, rfl⟩
    rfl

/-- Witness for claim C4 (amended) at a concrete environment with one
auxiliary VRT. -/
theorem claim_C4_witness :
    ((mapper_body envAux "f" false 500 1).bands.getD 0 default).src.DataType
        = some uint16Code ∧
    (adsBand aux1).src.DataType = none := by
  have h := claim_C4_amended envAux "f" false 500 1
      (mapper_body envAux "f" false 500 1) 0 (adsBand aux1) rfl (by decide)
      (by decide)
  exact ⟨h.1, h.2.2⟩

/-- Claim C10: every auxiliary-grid descriptor appended after the static
table carries neither a ScaleRatio key nor a DataType key, and its source
is always band 1 of its auxiliary raster. -/
theorem claim_C10_aux_bands {α : Type} (env : MerisEnv α) (fileName : String)
    (geolocation : Bool) (zoomSize step : Nat) (m : Mapper) (bd : BandDict)
    (h : (mapper_init env fileName geolocation zoomSize step).1 = Except.ok m)
    (hbd : bd ∈ m.bands.drop 16) :
    bd.src.ScaleRatio = none ∧ bd.src.DataType = none ∧
    bd.src.SourceBand = 1 := by
  have hm := mapper_init_ok_eq env fileName geolocation zoomSize step m h
  subst hm
  have hdrop : (mapper_body env fileName geolocation zoomSize step).bands.drop 16
      = env.adsVRTs.map adsBand := rfl
  rw [hdrop] at hbd
  rcases List.mem_map.mp hbd with ⟨v, hv, rfl⟩
  exact ⟨rfl, rfl, rfl⟩

/-- Witness for claim C10 at the single auxiliary descriptor of a concrete
environment. -/
theorem claim_C10_witness :
    (adsBand aux1).src.ScaleRatio = none ∧ (adsBand aux1).src.DataType = none ∧
    (adsBand aux1).src.SourceBand = 1 :=
  claim_C10_aux_bands envAux "f" false 500 1
    (mapper_body envAux "f" false 500 1) (adsBand aux1) rfl (by decide)

/-- Claim C7: a construction with geolocation off attaches no geolocation
array; a construction with geolocation on attaches exactly one, computed
from the supplied zoomSize and step. -/
theorem claim_C7_geolocation {α : Type} (env : MerisEnv α) (fileName : String)
    (zoomSize step : Nat) (m1 m2 : Mapper)
    (h1 : (mapper_init env fileName false zoomSize step).1 = Except.ok m1)
    (h2 : (mapper_init env fileName true zoomSize step).1 = Except.ok m2) :
    m1.geolocationArrays = [] ∧
    m2.geolocationArrays = add_geolocation_from_ads zoomSize step ∧
    m2.geolocationArrays.length = 1 ∧
    m2.geolocationArrays = [(zoomSize, step)] := by
  have hm1 := mapper_init_ok_eq env fileName false zoomSize step m1 h1
  have hm2 := mapper_init_ok_eq env fileName true zoomSize step m2 h2
  subst hm1
  subst hm2
  exact ⟨rfl, rfl, rfl, rfl⟩

/-- Witness for claim C7 at a concrete valid product with zoomSize 500 and
step 1. -/
theorem claim_C7_witness :
    (mapper_body envOk "f" false 500 1).geolocationArrays = [] ∧
    (mapper_body envOk "f" true 500 1).geolocationArrays = [(500, 1)] := by
  have h := claim_C7_geolocation envOk "f" 500 1
      (mapper_body envOk "f" false 500 1) (mapper_body envOk "f" true 500 1)
      rfl rfl
  exact ⟨h.1, h.2.2.2⟩

end MerisL1
